import Mathlib

/-!
Shallow embedding of the connection/profile management subsystem of
aws-toolkit-vscode: the `ProfileStore` (CRUD over a persisted id -> profile
mapping with audit de-duplication), the scope predicates `hasScopes` /
`hasExactScopes`, and the two reconciliation algorithms
`loadIamProfilesIntoStore` and `loadLinkedProfilesIntoStore`.

The persisted mapping (a VS Code memento holding a JSON object) is embedded
as an association list with unique keys; object update `{...data, [id]: p}`
replaces the first occurrence in place or appends, `delete data[id]` filters
the key out, and `Object.entries` is the list itself.
-/

/-- `ProfileMetadata.connectionState` values. -/
inductive ConnectionState where
  | valid
  | invalid
  | unauthenticated
  | authenticating
deriving DecidableEq, Repr

/-- `ProfileMetadata`: `label?`, `connectionState`, `source?`. -/
structure ProfileMetadata where
  label : Option String
  connectionState : ConnectionState
  source : Option String
deriving DecidableEq, Repr

/-- The `Profile` tagged union: `SsoProfile`, `LinkedIamProfile`,
`UnknownIamProfile` (discriminated by `type` and, for iam, `subtype`). -/
inductive Profile where
  | sso (ssoRegion startUrl : String) (scopes : Option (List String))
  | iamLinked (name ssoSession ssoRoleName ssoAccountId : String)
  | iamUnknown (name : String)
deriving DecidableEq, Repr

/-- The `type` discriminant field: `'sso'` or `'iam'`. -/
inductive ProfileType where
  | sso
  | iam
deriving DecidableEq, Repr

/-- `profile.type` as the source reads it. -/
def Profile.type : Profile → ProfileType
  | .sso .. => .sso
  | .iamLinked .. => .iam
  | .iamUnknown .. => .iam

/-- `StoredProfile<T> = T & { metadata: ProfileMetadata }`. -/
structure StoredProfile where
  profile : Profile
  metadata : ProfileMetadata
deriving DecidableEq, Repr

/-- The persisted `auth.profiles` object: id -> StoredProfile. -/
abbrev ProfileData := List (String × StoredProfile)

/-- JS object read `data[id]`. -/
def lookupKey {α : Type} : List (String × α) → String → Option α
  | [], _ => none
  | kv :: rest, id => if kv.1 = id then some kv.2 else lookupKey rest id

/-- JS object write `{ ...data, [id]: v }`: replace the existing key in
place, or append at the end. -/
def setKey {α : Type} : List (String × α) → String → α → List (String × α)
  | [], id, v => [(id, v)]
  | kv :: rest, id, v => if kv.1 = id then (id, v) :: rest else kv :: setKey rest id v

/-- JS `delete data[id]`. -/
def delKey {α : Type} (m : List (String × α)) (id : String) : List (String × α) :=
  m.filter (fun kv => !decide (kv.1 = id))

/-- `ProfileStore`: the persisted mapping plus the in-memory
`_prevGetProfile` telemetry de-duplication state. -/
structure ProfileStore where
  data : ProfileData
  prevGetProfile : Option (String × ConnectionState)
deriving DecidableEq, Repr

/-- Errors thrown by store operations: `ProfileNotFoundError` and the
`Cannot change profile type` error of `updateProfile`. -/
inductive StoreError where
  | profileNotFound (id : String)
  | typeMismatch (oldType newType : ProfileType)
deriving DecidableEq, Repr

/-- Result of a fallible store operation. -/
inductive OpResult (α : Type) where
  | ok (value : α)
  | err (e : StoreError)
deriving DecidableEq, Repr

/-- Whether the operation succeeded. -/
def OpResult.isOk {α : Type} : OpResult α → Bool
  | .ok _ => true
  | .err _ => false

/-- `result: 'Succeeded' | 'Failed'` of an `auth_modifyConnection` event. -/
inductive AuditResult where
  | Succeeded
  | Failed
deriving DecidableEq, Repr

/-- An `auth_modifyConnection` telemetry event (the fields the claims use). -/
structure AuditEvent where
  action : String
  id : String
  result : AuditResult
deriving DecidableEq, Repr

/-- `ProfileStore.getProfile`: pure lookup. -/
def ProfileStore.getProfile (s : ProfileStore) (id : String) : Option StoredProfile :=
  lookupKey s.data id

/-- `ProfileStore.listProfiles`: `Object.entries` of the mapping. -/
def ProfileStore.listProfiles (s : ProfileStore) : ProfileData :=
  s.data

/-- `ProfileStore.getProfileOrThrow`: on miss emits a `Failed` event and
throws `ProfileNotFoundError`; on hit emits `Succeeded` only when
`(id, connectionState)` differs from `_prevGetProfile`, updating it. -/
def ProfileStore.getProfileOrThrow (s : ProfileStore) (id : String) :
    OpResult StoredProfile × ProfileStore × List AuditEvent :=
  match s.getProfile id with
  | none => (.err (.profileNotFound id), s, [⟨"getProfile", id, .Failed⟩])
  | some profile =>
    if s.prevGetProfile ≠ some (id, profile.metadata.connectionState) then
      (.ok profile,
        { s with prevGetProfile := some (id, profile.metadata.connectionState) },
        [⟨"getProfile", id, .Succeeded⟩])
    else
      (.ok profile, s, [])

/-- `ProfileStore.initMetadata`: the profile plus
`{ connectionState: 'unauthenticated' }`. -/
def initMetadata (profile : Profile) : StoredProfile :=
  ⟨profile, ⟨none, .unauthenticated, none⟩⟩

/-- `ProfileStore.putProfile`: write the profile back under `id`. -/
def ProfileStore.putProfile (s : ProfileStore) (id : String) (p : StoredProfile) :
    ProfileStore × StoredProfile :=
  ({ s with data := setKey s.data id p }, p)

/-- `ProfileStore.addProfile`: initialize metadata and persist. -/
def ProfileStore.addProfile (s : ProfileStore) (id : String) (profile : Profile) :
    ProfileStore × StoredProfile :=
  s.putProfile id (initMetadata profile)

/-- The spread `{ ...oldProfile, ...profile }` on the profile body: every
field of the new profile wins; the optional `scopes` of an `sso` profile,
when absent from the new value, survives from the old one. -/
def mergeProfile (old new : Profile) : Profile :=
  match old, new with
  | .sso _ _ oldScopes, .sso r u none => .sso r u oldScopes
  | _, p => p

/-- `ProfileStore.updateProfile`: `getProfileOrThrow`, then fail on a changed
`type` discriminant, else persist the shallow merge (metadata preserved). -/
def ProfileStore.updateProfile (s : ProfileStore) (id : String) (profile : Profile) :
    OpResult StoredProfile × ProfileStore × List AuditEvent :=
  match s.getProfileOrThrow id with
  | (.err e, s', evs) => (.err e, s', evs)
  | (.ok oldProfile, s', evs) =>
    if oldProfile.profile.type ≠ profile.type then
      (.err (.typeMismatch oldProfile.profile.type profile.type), s', evs)
    else
      (.ok (s'.putProfile id ⟨mergeProfile oldProfile.profile profile, oldProfile.metadata⟩).2,
        (s'.putProfile id ⟨mergeProfile oldProfile.profile profile, oldProfile.metadata⟩).1,
        evs)

/-- A partial `ProfileMetadata` as `updateMetadata` receives it: absent
fields keep the stored value under the spread `{...profile.metadata, ...metadata}`. -/
structure MetadataPatch where
  label : Option String
  connectionState : Option ConnectionState
  source : Option String
deriving DecidableEq, Repr

/-- The spread `{ ...profile.metadata, ...metadata }`. -/
def mergeMetadata (old : ProfileMetadata) (patch : MetadataPatch) : ProfileMetadata :=
  ⟨(patch.label).orElse (fun _ => old.label),
   (patch.connectionState).getD old.connectionState,
   (patch.source).orElse (fun _ => old.source)⟩

/-- `ProfileStore.updateMetadata`: `getProfileOrThrow`, then persist the
profile with merged metadata. -/
def ProfileStore.updateMetadata (s : ProfileStore) (id : String) (patch : MetadataPatch) :
    OpResult StoredProfile × ProfileStore × List AuditEvent :=
  match s.getProfileOrThrow id with
  | (.err e, s', evs) => (.err e, s', evs)
  | (.ok profile, s', evs) =>
    (.ok (s'.putProfile id ⟨profile.profile, mergeMetadata profile.metadata patch⟩).2,
      (s'.putProfile id ⟨profile.profile, mergeMetadata profile.metadata patch⟩).1,
      evs)

/-- `ProfileStore.deleteProfile`: remove the entry (no error when absent). -/
def ProfileStore.deleteProfile (s : ProfileStore) (id : String) : ProfileStore :=
  { s with data := delKey s.data id }

/-- `scopesSsoAccountAccess = ['sso:account:access']`. -/
def scopesSsoAccountAccess : List String := ["sso:account:access"]

/-- `hasScopes(target, scopes)`: every required scope is present. -/
def hasScopes (target scopes : List String) : Bool :=
  scopes.all (fun s => target.contains s)

/-- `hasExactScopes(target, scopes)`: equal length and every required scope
present. -/
def hasExactScopes (target scopes : List String) : Bool :=
  scopes.length == target.length && scopes.all (fun s => target.contains s)

/-! ## Reconciler (a): unmanaged-profile sync, `loadIamProfilesIntoStore` -/

/-- One step of the first loop of `loadIamProfilesIntoStore`, over a snapshot
entry of `store.listProfiles()`: a linked profile whose `ssoSession` does not
resolve to an `sso` profile is deleted and its provider removed; an unknown
profile absent from the provider enumeration is deleted. The accumulator is
the evolving store plus the ids passed to `manager.removeProvider`. -/
def iamSyncStep (providers : List (String × String)) (acc : ProfileStore × List String)
    (entry : String × StoredProfile) : ProfileStore × List String :=
  match entry.2.profile with
  | .sso .. => acc
  | .iamLinked _ ssoSession _ _ =>
    (match acc.1.getProfile ssoSession with
     | some src =>
       if src.profile.type = .sso then acc
       else (acc.1.deleteProfile entry.1, acc.2 ++ [entry.1])
     | none => (acc.1.deleteProfile entry.1, acc.2 ++ [entry.1]))
  | .iamUnknown _ =>
    if (lookupKey providers entry.1).isSome then acc
    else (acc.1.deleteProfile entry.1, acc.2)

/-- One step of the second loop of `loadIamProfilesIntoStore`, over a
provider entry `(id, credentialTypeId)`: an id absent from the store that is
not `sso:`-prefixed is added as `iam/unknown`. -/
def iamAddStep (s : ProfileStore) (pv : String × String) : ProfileStore :=
  if (s.getProfile pv.1).isNone && !pv.1.startsWith "sso:" then
    (s.addProfile pv.1 (.iamUnknown pv.2)).1
  else s

/-- `loadIamProfilesIntoStore(store, manager)`: the provider enumeration
`manager.getCredentialProviderNames()` is the `providers` list
(id, credentialTypeId). Returns the final store and the ids removed from the
external registration. -/
def loadIamProfilesIntoStore (store : ProfileStore) (providers : List (String × String)) :
    ProfileStore × List String :=
  let r := store.listProfiles.foldl (iamSyncStep providers) (store, [])
  (providers.foldl iamAddStep r.1, r.2)

/-! ## Reconciler (b): linked-profile discovery, `loadLinkedProfilesIntoStore`

The federation catalog (`client.listAccounts()` and
`client.listAccountRoles`) is embedded as a finite list of
`(accountId, role names)`; the flattened stream of the source is then
`pairsOf catalog`, a sequence of `(accountId, roleName)` pairs in order.
A `listAccounts()` failure is caught in the source and behaves as the empty
catalog. -/

/-- The flattened `(accountId, roleName)` stream of a catalog. -/
def pairsOf (catalog : List (String × List String)) : List (String × String) :=
  catalog.flatMap (fun ar => ar.2.map (fun r => (ar.1, r)))

/-- `` `${info.roleName}-${info.accountId}` ``. -/
def mkName (accountId roleName : String) : String :=
  roleName ++ "-" ++ accountId

/-- `` `sso:${sourceId}#${name}` ``. -/
def mkLinkedId (sourceId accountId roleName : String) : String :=
  "sso:" ++ sourceId ++ "#" ++ mkName accountId roleName

/-- The id derived from one stream pair. -/
def mkPairId (sourceId : String) (pr : String × String) : String :=
  mkLinkedId sourceId pr.1 pr.2

/-- `Set.add`: insertion-ordered set as a duplicate-free append. -/
def addSet (l : List String) (x : String) : List String :=
  if x ∈ l then l else l ++ [x]

/-- The `accounts` set after a full drain: every `accountId` of the catalog. -/
def accountsOf (catalog : List (String × List String)) : List String :=
  catalog.foldl (fun acc ar => addSet acc ar.1) []

/-- The generator's loop state: the store, the `found` set of derived ids,
and the `(id, profile)` pairs yielded to the consumer so far. -/
structure DiscoveryState where
  store : ProfileStore
  found : List String
  yielded : List (String × StoredProfile)
deriving DecidableEq, Repr

/-- The body of `for await (const info of stream)`: derive the id, add it to
`found`, and unless a profile already exists under that id, create the
`iam/linked` profile and yield it. -/
def discoveryStep (sourceId : String) (st : DiscoveryState) (pr : String × String) :
    DiscoveryState :=
  let id := mkPairId sourceId pr
  let found := addSet st.found id
  if (st.store.getProfile id).isSome then { st with found := found }
  else
    { store := (st.store.addProfile id (.iamLinked (mkName pr.1 pr.2) sourceId pr.2 pr.1)).1
      found := found
      yielded := st.yielded ++ [(id, (st.store.addProfile id
        (.iamLinked (mkName pr.1 pr.2) sourceId pr.2 pr.1)).2)] }

/-- A run of `loadLinkedProfilesIntoStore` whose consumer stops consuming
after the first `n` pairs of the stream were processed: the loop body ran on
that prefix and nothing after the loop (no warning, no cleanup) ran. -/
def loadLinkedEarlyStop (store : ProfileStore) (sourceId : String)
    (catalog : List (String × List String)) (n : Nat) : DiscoveryState :=
  ((pairsOf catalog).take n).foldl (discoveryStep sourceId) ⟨store, [], []⟩

/-- `ssoProfile.scopes`. -/
def ssoProfileScopes (sp : StoredProfile) : Option (List String) :=
  match sp.profile with
  | .sso _ _ scopes => scopes
  | _ => none

/-- `ssoProfile.startUrl`. -/
def ssoProfileStartUrl (sp : StoredProfile) : String :=
  match sp.profile with
  | .sso _ startUrl _ => startUrl
  | _ => ""

/-- `!!ssoProfile.scopes?.some((s) => !scopesSsoAccountAccess.includes(s))`:
does the profile have scopes other than `sso:account:access`? -/
def hasOtherScopes (sp : StoredProfile) : Bool :=
  match ssoProfileScopes sp with
  | none => false
  | some l => l.any (fun s => !scopesSsoAccountAccess.contains s)

/-- Modelled from the spec: `truncateStartUrl` (from `sso/model`, not among
the repository files given) renders a start URL as a display name; no claim
depends on the truncation itself, so it is embedded as the URL unchanged. -/
def truncateStartUrl (startUrl : String) : String :=
  startUrl

/-- Modelled from the spec: `onceChanged` (from
`shared/utilities/functionUtils`, not among the repository files given)
wraps `warnOnce`; per the in-source doc comment "Shows a warning message
unless it is the same as the last one shown" it compares the call's message
against the previous call only. Returns whether the message is displayed,
and the new last-message state. -/
def warnOnce (last : Option String) (msg : String) : Bool × Option String :=
  (decide (last ≠ some msg), some msg)

/-- The message passed to `warnOnce`. -/
def warnMessage (name : String) : String :=
  "IAM Identity Center (" ++ name ++
    ") returned no roles. Ensure the user is assigned to an account with a Permission Set."

/-- `getLogger().warn('auth: SSO org (%s) returned no accounts', name)`. -/
def logNoAccounts (name : String) : String :=
  "auth: SSO org (" ++ name ++ ") returned no accounts"

/-- `getLogger().warn('auth: SSO org (%s) returned no roles for account: %s', ...)`. -/
def logNoRoles (name accounts : String) : String :=
  "auth: SSO org (" ++ name ++ ") returned no roles for account: " ++ accounts

/-- The `ssoSession` of a stored profile when it is `iam/linked`
(`profile.type === 'iam' && profile.subtype === 'linked'`). -/
def linkedSsoSession (sp : StoredProfile) : Option String :=
  match sp.profile with
  | .iamLinked _ ssoSession _ _ => some ssoSession
  | _ => none

/-- The condition of the cleanup loop:
`profile.type === 'iam' && profile.subtype === 'linked' &&
profile.ssoSession === sourceId && !found.has(id)`. -/
def cleanupCond (sourceId : String) (found : List String) (id : String)
    (sp : StoredProfile) : Prop :=
  linkedSsoSession sp = some sourceId ∧ id ∉ found

instance (sourceId : String) (found : List String) (id : String) (sp : StoredProfile) :
    Decidable (cleanupCond sourceId found id sp) :=
  inferInstanceAs (Decidable (_ ∧ _))

/-- One step of the cleanup loop: delete a stored `iam/linked` profile of
this `ssoSession` whose id the drained stream did not produce. -/
def cleanupStep (sourceId : String) (found : List String) (s : ProfileStore)
    (entry : String × StoredProfile) : ProfileStore :=
  if cleanupCond sourceId found entry.1 entry.2 then s.deleteProfile entry.1 else s

/-- Everything a fully drained `loadLinkedProfilesIntoStore` run produced:
the final store, the internal `found` / `accounts` sets, the yields, the log
warnings, whether `warnOnce` was called, whether it displayed its message
(`onceChanged` shows a message unless it equals the last one shown), and the
new last-shown-message state. -/
structure DiscoveryResult where
  store : ProfileStore
  found : List String
  yielded : List (String × StoredProfile)
  accounts : List String
  logs : List String
  warnCalled : Bool
  shownWarning : Bool
  warnState : Option String
deriving DecidableEq, Repr

/-- A fully drained run of `loadLinkedProfilesIntoStore`: the loop over the
flattened stream, then the zero-result diagnostic, then the stale-reference
cleanup over a snapshot of the store. `warnState` is the module-level
`onceChanged` state (the last message shown) carried across runs. -/
def loadLinkedFull (store : ProfileStore) (sourceId : String) (ssoProfile : StoredProfile)
    (catalog : List (String × List String)) (warnState : Option String) : DiscoveryResult :=
  let st := (pairsOf catalog).foldl (discoveryStep sourceId) ⟨store, [], []⟩
  let accounts := accountsOf catalog
  let warnCond := !hasOtherScopes ssoProfile && (accounts.isEmpty || st.found.isEmpty)
  let name := truncateStartUrl (ssoProfileStartUrl ssoProfile)
  let logs :=
    if warnCond then
      if accounts.isEmpty then [logNoAccounts name]
      else if st.found.isEmpty then [logNoRoles name (String.intercalate "," accounts)]
      else []
    else []
  let shownWarning := warnCond && (warnOnce warnState (warnMessage name)).1
  let warnStateNew := if warnCond then (warnOnce warnState (warnMessage name)).2 else warnState
  let finalStore := st.store.listProfiles.foldl (cleanupStep sourceId st.found) st.store
  ⟨finalStore, st.found, st.yielded, accounts, logs, warnCond, shownWarning, warnStateNew⟩

/-! ## Association-list lemmas -/

theorem lookupKey_setKey_self {α : Type} (m : List (String × α)) (id : String) (v : α) :
    lookupKey (setKey m id v) id = some v := by
  induction m with
  | nil => simp [setKey, lookupKey]
  | cons kv rest ih =>
    by_cases h : kv.1 = id
    · simp [setKey, h, lookupKey]
    · simp [setKey, h, lookupKey, ih]

theorem lookupKey_setKey_ne {α : Type} (m : List (String × α)) (id id' : String) (v : α)
    (h : id' ≠ id) : lookupKey (setKey m id v) id' = lookupKey m id' := by
  induction m with
  | nil => simp [setKey, lookupKey, Ne.symm h]
  | cons kv rest ih =>
    by_cases hk : kv.1 = id
    · subst hk
      simp [setKey, lookupKey, Ne.symm h]
    · simp [setKey, hk, lookupKey, ih]

theorem delKey_cons {α : Type} (kv : String × α) (rest : List (String × α)) (id : String) :
    delKey (kv :: rest) id =
      if kv.1 = id then delKey rest id else kv :: delKey rest id := by
  by_cases h : kv.1 = id <;> simp [delKey, List.filter_cons, h]

theorem lookupKey_delKey_self {α : Type} (m : List (String × α)) (id : String) :
    lookupKey (delKey m id) id = none := by
  induction m with
  | nil => simp [delKey, lookupKey]
  | cons kv rest ih =>
    rw [delKey_cons]
    by_cases h : kv.1 = id
    · simpa [h] using ih
    · simp [lookupKey, h, ih]

theorem lookupKey_delKey_ne {α : Type} (m : List (String × α)) (id id' : String)
    (h : id' ≠ id) : lookupKey (delKey m id) id' = lookupKey m id' := by
  induction m with
  | nil => simp [delKey, lookupKey]
  | cons kv rest ih =>
    rw [delKey_cons]
    by_cases hk : kv.1 = id
    · have hk' : kv.1 ≠ id' := by rw [hk]; exact Ne.symm h
      simp [hk, lookupKey, hk', Ne.symm h, ih]
    · by_cases hk' : kv.1 = id'
      · simp [hk, lookupKey, hk', h]
      · simp [hk, lookupKey, hk', ih]

theorem lookupKey_mem {α : Type} (m : List (String × α)) (id : String) (v : α)
    (h : lookupKey m id = some v) : (id, v) ∈ m := by
  induction m with
  | nil => simp [lookupKey] at h
  | cons kv rest ih =>
    by_cases hk : kv.1 = id
    · simp [lookupKey, hk] at h
      obtain ⟨a, b⟩ := kv
      simp at hk
      subst hk
      subst h
      exact List.mem_cons_self _ _
    · simp [lookupKey, hk] at h
      exact List.mem_cons_of_mem _ (ih h)

theorem mem_delKey {α : Type} {m : List (String × α)} {id : String} {kv : String × α}
    (h : kv ∈ delKey m id) : kv ∈ m ∧ kv.1 ≠ id := by
  simpa [delKey] using (List.mem_filter.mp h)

/-! ## Spec theorems for the profile store claims -/

/-- Helper: reading back what `addProfile` stored. -/
theorem getProfile_addProfile (s : ProfileStore) (id : String) (p : Profile) :
    ((s.addProfile id p).1).getProfile id =
      some ⟨p, ⟨none, ConnectionState.unauthenticated, none⟩⟩ := by
  simp [ProfileStore.addProfile, ProfileStore.putProfile, ProfileStore.getProfile,
    initMetadata, lookupKey_setKey_self]

/-- Helper: `getProfileOrThrow` on a present id. -/
theorem getProfileOrThrow_eq_some (s : ProfileStore) (id : String) (p : StoredProfile)
    (h : s.getProfile id = some p) :
    s.getProfileOrThrow id =
      if s.prevGetProfile ≠ some (id, p.metadata.connectionState) then
        (.ok p, { s with prevGetProfile := some (id, p.metadata.connectionState) },
          [⟨"getProfile", id, .Succeeded⟩])
      else (.ok p, s, []) := by
  unfold ProfileStore.getProfileOrThrow
  rw [h]

/-- Helper: `getProfileOrThrow` on an absent id. -/
theorem getProfileOrThrow_eq_none (s : ProfileStore) (id : String)
    (h : s.getProfile id = none) :
    s.getProfileOrThrow id = (.err (.profileNotFound id), s, [⟨"getProfile", id, .Failed⟩]) := by
  unfold ProfileStore.getProfileOrThrow
  rw [h]

/-- C3: for every id (no precondition on the store) and profile `p`, after
`addProfile(id, p)` the lookup `getProfile(id)` returns `p` extended with
metadata `{connectionState: unauthenticated}`. -/
theorem C3_addProfile_then_getProfile (s : ProfileStore) (id : String) (p : Profile) :
    ((s.addProfile id p).1).getProfile id =
      some ⟨p, ⟨none, ConnectionState.unauthenticated, none⟩⟩ :=
  getProfile_addProfile s id p

/-- C10: `addProfile` on an id already present does not fail and does not
check the existing entry: it replaces the stored record with `p` and
reinitializes the metadata to `{connectionState: unauthenticated}`,
discarding whatever metadata was stored before. -/
theorem C10_addProfile_overwrites (s : ProfileStore) (id : String) (p : Profile)
    (old : StoredProfile) (hold : s.getProfile id = some old) :
    ((s.addProfile id p).1).getProfile id =
      some ⟨p, ⟨none, ConnectionState.unauthenticated, none⟩⟩ :=
  getProfile_addProfile s id p

/-- Witness for C10 at a concrete store: an existing `sso` record under
"x" with non-default metadata is replaced wholesale. -/
theorem C10_addProfile_overwrites_witness :
    ((ProfileStore.addProfile
        ⟨[("x", ⟨.sso "us-east-1" "https://u" none, ⟨some "lbl", .valid, some "toolkit"⟩⟩)], none⟩
        "x" (.iamUnknown "n")).1).getProfile "x" =
      some ⟨.iamUnknown "n", ⟨none, ConnectionState.unauthenticated, none⟩⟩ :=
  C10_addProfile_overwrites
    ⟨[("x", ⟨.sso "us-east-1" "https://u" none, ⟨some "lbl", .valid, some "toolkit"⟩⟩)], none⟩
    "x" (.iamUnknown "n")
    ⟨.sso "us-east-1" "https://u" none, ⟨some "lbl", .valid, some "toolkit"⟩⟩ (by decide)

/-- C4: `updateProfile` with a profile whose `type` discriminant differs
from the stored one fails with the type-mismatch error, and the persisted
mapping (including the record under `id`) is unchanged by the failed call. -/
theorem C4_updateProfile_type_mismatch (s : ProfileStore) (id : String) (p : Profile)
    (old : StoredProfile) (hold : s.getProfile id = some old)
    (hne : old.profile.type ≠ p.type) :
    (s.updateProfile id p).1 = .err (.typeMismatch old.profile.type p.type) ∧
    (s.updateProfile id p).2.1.data = s.data := by
  unfold ProfileStore.updateProfile
  rw [getProfileOrThrow_eq_some s id old hold]
  by_cases hprev : s.prevGetProfile ≠ some (id, old.metadata.connectionState)
  · simp [hprev, hne]
  · simp [hprev, hne]

/-- Witness for C4: updating the `sso` profile stored under "a" with an
`iam` profile fails and leaves the mapping as it was. -/
theorem C4_updateProfile_type_mismatch_witness :
    (ProfileStore.updateProfile
        ⟨[("a", ⟨.sso "us-east-1" "https://u" none, ⟨none, .unauthenticated, none⟩⟩)], none⟩
        "a" (.iamUnknown "n")).1 = .err (.typeMismatch .sso .iam) ∧
    (ProfileStore.updateProfile
        ⟨[("a", ⟨.sso "us-east-1" "https://u" none, ⟨none, .unauthenticated, none⟩⟩)], none⟩
        "a" (.iamUnknown "n")).2.1.data =
      [("a", ⟨.sso "us-east-1" "https://u" none, ⟨none, .unauthenticated, none⟩⟩)] :=
  C4_updateProfile_type_mismatch
    ⟨[("a", ⟨.sso "us-east-1" "https://u" none, ⟨none, .unauthenticated, none⟩⟩)], none⟩
    "a" (.iamUnknown "n")
    ⟨.sso "us-east-1" "https://u" none, ⟨none, .unauthenticated, none⟩⟩ (by decide) (by decide)

/-- C5: `getProfileOrThrow` and `updateMetadata` fail with
`ProfileNotFound` exactly when no profile is stored under the id; when one
is stored, `getProfileOrThrow` returns it and `updateMetadata` succeeds. -/
theorem C5_profileNotFound_exactly_when_absent (s : ProfileStore) (id : String)
    (patch : MetadataPatch) :
    ((s.getProfileOrThrow id).1 = .err (.profileNotFound id) ↔ s.getProfile id = none) ∧
    ((s.updateMetadata id patch).1 = .err (.profileNotFound id) ↔ s.getProfile id = none) ∧
    (∀ p, s.getProfile id = some p →
      (s.getProfileOrThrow id).1 = .ok p ∧ ((s.updateMetadata id patch).1).isOk = true) := by
  match hp : s.getProfile id with
  | none =>
    rw [getProfileOrThrow_eq_none s id hp]
    unfold ProfileStore.updateMetadata
    rw [getProfileOrThrow_eq_none s id hp]
    simp
  | some p =>
    rw [getProfileOrThrow_eq_some s id p hp]
    unfold ProfileStore.updateMetadata
    rw [getProfileOrThrow_eq_some s id p hp]
    by_cases hprev : s.prevGetProfile ≠ some (id, p.metadata.connectionState)
    · simp [hprev, OpResult.isOk, hp]
    · simp [hprev, OpResult.isOk, hp]

/-- Witness for C5 (the present-id conjunct applied at a concrete store). -/
theorem C5_profileNotFound_witness :
    (ProfileStore.getProfileOrThrow
        ⟨[("a", ⟨.iamUnknown "n", ⟨none, .unauthenticated, none⟩⟩)], none⟩ "a").1 =
      .ok ⟨.iamUnknown "n", ⟨none, .unauthenticated, none⟩⟩ ∧
    ((ProfileStore.updateMetadata
        ⟨[("a", ⟨.iamUnknown "n", ⟨none, .unauthenticated, none⟩⟩)], none⟩ "a"
        ⟨none, some .valid, none⟩).1).isOk = true :=
  (C5_profileNotFound_exactly_when_absent
      ⟨[("a", ⟨.iamUnknown "n", ⟨none, .unauthenticated, none⟩⟩)], none⟩ "a"
      ⟨none, some .valid, none⟩).2.2
    ⟨.iamUnknown "n", ⟨none, .unauthenticated, none⟩⟩ (by decide)

/-- The number of `Succeeded` events in a list of audit events. -/
def countSucceeded (evs : List AuditEvent) : Nat :=
  (evs.filter (fun e => decide (e.result = .Succeeded))).length

/-- C6: with a profile stored under `id` and no `Succeeded` emission already
recorded for `(id, connectionState)`, two back-to-back `getProfileOrThrow(id)`
calls with no intervening state change emit exactly one `Succeeded` audit
event across the two calls: the second call is de-duplicated. -/
theorem C6_audit_dedup (s : ProfileStore) (id : String) (p : StoredProfile)
    (hp : s.getProfile id = some p)
    (hprev : s.prevGetProfile ≠ some (id, p.metadata.connectionState)) :
    countSucceeded ((s.getProfileOrThrow id).2.2 ++
        (((s.getProfileOrThrow id).2.1).getProfileOrThrow id).2.2) = 1 := by
  rw [getProfileOrThrow_eq_some s id p hp]
  rw [if_pos hprev]
  have hp2 : ProfileStore.getProfile
      { s with prevGetProfile := some (id, p.metadata.connectionState) } id = some p := hp
  rw [getProfileOrThrow_eq_some _ id p hp2]
  simp [countSucceeded]

/-- Witness for C6 at a concrete one-profile store with fresh
de-duplication state. -/
theorem C6_audit_dedup_witness :
    countSucceeded
      ((ProfileStore.getProfileOrThrow
          ⟨[("a", ⟨.iamUnknown "n", ⟨none, .unauthenticated, none⟩⟩)], none⟩ "a").2.2 ++
        (((ProfileStore.getProfileOrThrow
          ⟨[("a", ⟨.iamUnknown "n", ⟨none, .unauthenticated, none⟩⟩)], none⟩ "a").2.1).getProfileOrThrow
          "a").2.2) = 1 :=
  C6_audit_dedup ⟨[("a", ⟨.iamUnknown "n", ⟨none, .unauthenticated, none⟩⟩)], none⟩ "a"
    ⟨.iamUnknown "n", ⟨none, .unauthenticated, none⟩⟩ (by decide) (by decide)

/-- C7: `hasExactScopes(target, scopes)` is true iff the collections have
equal length and every element of `scopes` is in `target`; in particular
`hasExactScopes(["a","b"], ["b","a"])`, not `hasExactScopes(["a","b"], ["a"])`;
and `hasScopes(target, scopes)` is true iff `scopes ⊆ target`. -/
theorem C7_hasExactScopes_spec :
    (∀ target scopes : List String,
      hasExactScopes target scopes = true ↔
        (scopes.length = target.length ∧ ∀ x ∈ scopes, x ∈ target)) ∧
    hasExactScopes ["a", "b"] ["b", "a"] = true ∧
    hasExactScopes ["a", "b"] ["a"] = false ∧
    (∀ target scopes : List String,
      hasScopes target scopes = true ↔ ∀ x ∈ scopes, x ∈ target) := by
  refine ⟨fun target scopes => ?_, by decide, by decide, fun target scopes => ?_⟩
  · simp [hasExactScopes, List.all_eq_true, List.elem_iff]
  · simp [hasScopes, List.all_eq_true, List.elem_iff]

/-- Witness for C7: the `hasScopes(["a","b","c"], ["a","c"])` example of the
spec, through the subset characterization. -/
theorem C7_hasScopes_witness : hasScopes ["a", "b", "c"] ["a", "c"] = true :=
  (C7_hasExactScopes_spec.2.2.2 ["a", "b", "c"] ["a", "c"]).mpr (by decide)

/-! ## Discovery-loop lemmas -/

theorem loadLinkedFull_store (store : ProfileStore) (sourceId : String)
    (ssoProfile : StoredProfile) (catalog : List (String × List String))
    (warnState : Option String) :
    (loadLinkedFull store sourceId ssoProfile catalog warnState).store =
      (((pairsOf catalog).foldl (discoveryStep sourceId) ⟨store, [], []⟩).store.listProfiles).foldl
        (cleanupStep sourceId
          ((pairsOf catalog).foldl (discoveryStep sourceId) ⟨store, [], []⟩).found)
        ((pairsOf catalog).foldl (discoveryStep sourceId) ⟨store, [], []⟩).store := rfl

theorem loadLinkedFull_found (store : ProfileStore) (sourceId : String)
    (ssoProfile : StoredProfile) (catalog : List (String × List String))
    (warnState : Option String) :
    (loadLinkedFull store sourceId ssoProfile catalog warnState).found =
      ((pairsOf catalog).foldl (discoveryStep sourceId) ⟨store, [], []⟩).found := rfl

theorem loadLinkedFull_yielded (store : ProfileStore) (sourceId : String)
    (ssoProfile : StoredProfile) (catalog : List (String × List String))
    (warnState : Option String) :
    (loadLinkedFull store sourceId ssoProfile catalog warnState).yielded =
      ((pairsOf catalog).foldl (discoveryStep sourceId) ⟨store, [], []⟩).yielded := rfl

theorem discoveryStep_preserves (sourceId : String) (st : DiscoveryState) (pr : String × String)
    (id : String) (v : StoredProfile) (h : lookupKey st.store.data id = some v) :
    lookupKey ((discoveryStep sourceId st pr).store.data) id = some v := by
  by_cases hs : (st.store.getProfile (mkPairId sourceId pr)).isSome
  · simp [discoveryStep, hs, h]
  · have hne : id ≠ mkPairId sourceId pr := by
      intro e
      rw [← e] at hs
      simp [ProfileStore.getProfile, h] at hs
    simp [discoveryStep, hs, ProfileStore.addProfile, ProfileStore.putProfile,
      lookupKey_setKey_ne _ _ _ _ hne, h]

theorem discoveryFold_preserves (sourceId : String) (l : List (String × String))
    (st : DiscoveryState) (id : String) (v : StoredProfile)
    (h : lookupKey st.store.data id = some v) :
    lookupKey ((l.foldl (discoveryStep sourceId) st).store.data) id = some v := by
  induction l generalizing st with
  | nil => exact h
  | cons pr rest ih => exact ih _ (discoveryStep_preserves sourceId st pr id v h)

theorem discoveryStep_found (sourceId : String) (st : DiscoveryState) (pr : String × String) :
    (discoveryStep sourceId st pr).found = addSet st.found (mkPairId sourceId pr) := by
  by_cases hs : (st.store.getProfile (mkPairId sourceId pr)).isSome
  · simp [discoveryStep, hs]
  · simp [discoveryStep, hs]

theorem discoveryFold_found (sourceId : String) (l : List (String × String))
    (st : DiscoveryState) :
    (l.foldl (discoveryStep sourceId) st).found =
      l.foldl (fun acc pr => addSet acc (mkPairId sourceId pr)) st.found := by
  induction l generalizing st with
  | nil => rfl
  | cons pr rest ih =>
    rw [List.foldl_cons, List.foldl_cons, ih, discoveryStep_found]

theorem mem_addSet (l : List String) (x y : String) : y ∈ addSet l x ↔ y ∈ l ∨ y = x := by
  by_cases h : x ∈ l
  · simp only [addSet, if_pos h]
    constructor
    · exact Or.inl
    · rintro (h1 | rfl)
      · exact h1
      · exact h
  · simp only [addSet, if_neg h]
    simp [List.mem_append]

theorem mem_foundFold (sourceId : String) (l : List (String × String)) (f : List String)
    (x : String) :
    x ∈ l.foldl (fun acc pr => addSet acc (mkPairId sourceId pr)) f ↔
      x ∈ f ∨ ∃ pr ∈ l, x = mkPairId sourceId pr := by
  induction l generalizing f with
  | nil => simp
  | cons pr rest ih =>
    rw [List.foldl_cons, ih, mem_addSet]
    simp only [List.exists_mem_cons_iff]
    tauto

theorem addSet_ne_nil (l : List String) (x : String) : addSet l x ≠ [] := by
  unfold addSet
  split
  · rename_i h
    intro e
    rw [e] at h
    exact absurd h (List.not_mem_nil x)
  · simp

theorem foldl_addSet_ne_nil {α : Type} (g : α → String) (l : List α) (acc : List String)
    (h : acc ≠ []) : l.foldl (fun a x => addSet a (g x)) acc ≠ [] := by
  induction l generalizing acc with
  | nil => exact h
  | cons x rest ih => exact ih _ (addSet_ne_nil _ _)

theorem foldl_addSet_nil_iff {α : Type} (g : α → String) (l : List α) :
    l.foldl (fun a x => addSet a (g x)) [] = [] ↔ l = [] := by
  cases l with
  | nil => simp
  | cons x rest =>
    simp only [List.foldl_cons]
    have h := foldl_addSet_ne_nil g rest (addSet [] (g x)) (addSet_ne_nil _ _)
    simp [h]

theorem discoveryStep_self_isSome (sourceId : String) (st : DiscoveryState)
    (pr : String × String) :
    (((discoveryStep sourceId st pr).store).getProfile (mkPairId sourceId pr)).isSome := by
  by_cases hs : (st.store.getProfile (mkPairId sourceId pr)).isSome
  · simp only [discoveryStep]
    rw [if_pos hs]
    exact hs
  · simp only [discoveryStep]
    rw [if_neg hs]
    simp [ProfileStore.addProfile, ProfileStore.putProfile, ProfileStore.getProfile,
      lookupKey_setKey_self]

theorem discoveryFold_isSome (sourceId : String) (l : List (String × String))
    (st : DiscoveryState) (id : String) (h : ((st.store).getProfile id).isSome) :
    (((l.foldl (discoveryStep sourceId) st).store).getProfile id).isSome := by
  rw [Option.isSome_iff_exists] at h
  obtain ⟨v, hv⟩ := h
  rw [Option.isSome_iff_exists]
  exact ⟨v, discoveryFold_preserves sourceId l st id v hv⟩

theorem discoveryFold_mem_isSome (sourceId : String) (l : List (String × String))
    (st : DiscoveryState) (pr : String × String) (hpr : pr ∈ l) :
    (((l.foldl (discoveryStep sourceId) st).store).getProfile (mkPairId sourceId pr)).isSome := by
  induction l generalizing st with
  | nil => exact absurd hpr (List.not_mem_nil pr)
  | cons q rest ih =>
    rw [List.foldl_cons]
    rcases List.mem_cons.mp hpr with rfl | hmem
    · exact discoveryFold_isSome sourceId rest _ _ (discoveryStep_self_isSome sourceId st pr)
    · exact ih _ hmem

theorem discoveryFold_noop (sourceId : String) (l : List (String × String)) (s : ProfileStore)
    (f : List String) (y : List (String × StoredProfile))
    (h : ∀ pr ∈ l, ((s.getProfile (mkPairId sourceId pr))).isSome) :
    l.foldl (discoveryStep sourceId) ⟨s, f, y⟩ =
      ⟨s, l.foldl (fun acc pr => addSet acc (mkPairId sourceId pr)) f, y⟩ := by
  induction l generalizing f with
  | nil => rfl
  | cons pr rest ih =>
    rw [List.foldl_cons, List.foldl_cons]
    have hstep : discoveryStep sourceId ⟨s, f, y⟩ pr = ⟨s, addSet f (mkPairId sourceId pr), y⟩ := by
      simp [discoveryStep, h pr (List.mem_cons_self pr rest)]
    rw [hstep]
    exact ih _ (fun q hq => h q (List.mem_cons_of_mem _ hq))

/-! ## Cleanup-loop lemmas -/

theorem cleanupFold_none (sourceId : String) (found : List String) (l : ProfileData)
    (s : ProfileStore) (id : String) (h : lookupKey s.data id = none) :
    lookupKey ((l.foldl (cleanupStep sourceId found) s).data) id = none := by
  induction l generalizing s with
  | nil => exact h
  | cons e rest ih =>
    rw [List.foldl_cons]
    apply ih
    by_cases hc : cleanupCond sourceId found e.1 e.2
    · simp only [cleanupStep, if_pos hc, ProfileStore.deleteProfile]
      by_cases he : id = e.1
      · rw [he]
        exact lookupKey_delKey_self _ _
      · rw [lookupKey_delKey_ne _ _ _ he]
        exact h
    · simpa [cleanupStep, hc] using h

theorem cleanupFold_deletes (sourceId : String) (found : List String)
    (id : String) (sp : StoredProfile) (hc : cleanupCond sourceId found id sp) :
    ∀ (l : ProfileData) (s : ProfileStore), (id, sp) ∈ l →
      lookupKey ((l.foldl (cleanupStep sourceId found) s).data) id = none := by
  intro l
  induction l with
  | nil =>
    intro s hmem
    exact absurd hmem (List.not_mem_nil _)
  | cons e rest ih =>
    intro s hmem
    rw [List.foldl_cons]
    rcases List.mem_cons.mp hmem with heq | hmem'
    · apply cleanupFold_none
      subst heq
      simp [cleanupStep, hc, ProfileStore.deleteProfile, lookupKey_delKey_self]
    · exact ih _ hmem'

theorem cleanupFold_keeps (sourceId : String) (found : List String) (l : ProfileData)
    (s : ProfileStore) (id : String) (hf : id ∈ found) :
    lookupKey ((l.foldl (cleanupStep sourceId found) s).data) id = lookupKey s.data id := by
  induction l generalizing s with
  | nil => rfl
  | cons e rest ih =>
    rw [List.foldl_cons, ih]
    by_cases hc : cleanupCond sourceId found e.1 e.2
    · have hne : id ≠ e.1 := by
        intro h
        exact hc.2 (h ▸ hf)
      simp only [cleanupStep, if_pos hc, ProfileStore.deleteProfile]
      exact lookupKey_delKey_ne _ _ _ hne
    · simp [cleanupStep, hc]

theorem cleanupFold_mem (sourceId : String) (found : List String) (l : ProfileData)
    (s : ProfileStore) (id : String) (sp : StoredProfile)
    (h : (id, sp) ∈ (l.foldl (cleanupStep sourceId found) s).data) :
    (id, sp) ∈ s.data ∧ ((id, sp) ∈ l → ¬ cleanupCond sourceId found id sp) := by
  induction l generalizing s with
  | nil =>
    refine ⟨h, fun hmem => absurd hmem (List.not_mem_nil _)⟩
  | cons e rest ih =>
    rw [List.foldl_cons] at h
    obtain ⟨hmem, hrest⟩ := ih _ h
    by_cases hc : cleanupCond sourceId found e.1 e.2
    · have hd : (id, sp) ∈ s.data ∧ id ≠ e.1 := by
        have : (id, sp) ∈ (s.deleteProfile e.1).data := by
          simpa [cleanupStep, hc] using hmem
        exact mem_delKey this
      refine ⟨hd.1, fun hin => ?_⟩
      rcases List.mem_cons.mp hin with heq | hin'
      · exact absurd (congrArg Prod.fst heq) hd.2
      · exact hrest hin'
    · have hmem' : (id, sp) ∈ s.data := by simpa [cleanupStep, hc] using hmem
      refine ⟨hmem', fun hin => ?_⟩
      rcases List.mem_cons.mp hin with heq | hin'
      · intro hcond
        apply hc
        rw [show e.1 = id from (congrArg Prod.fst heq).symm,
          show e.2 = sp from (congrArg Prod.snd heq).symm]
        exact hcond
      · exact hrest hin'

theorem cleanupFold_noop (sourceId : String) (found : List String) (l : ProfileData) :
    ∀ s : ProfileStore, (∀ e ∈ l, ¬ cleanupCond sourceId found e.1 e.2) →
      l.foldl (cleanupStep sourceId found) s = s := by
  induction l with
  | nil =>
    intro s h
    rfl
  | cons e rest ih =>
    intro s h
    rw [List.foldl_cons]
    rw [show cleanupStep sourceId found s e = s from by
      simp [cleanupStep, h e (List.mem_cons_self e rest)]]
    exact ih s (fun e' he' => h e' (List.mem_cons_of_mem _ he'))

/-- C1: stale cleanup of linked profiles. With a linked profile stored under
id `R` for session `sourceId`, a fully drained discovery run whose role
stream never derives the id `R` deletes `R` from the store; and a run whose
consumer stops early — the loop body ran on any prefix of the stream and the
cleanup phase never ran — leaves every stored profile (in particular `R`)
exactly as it was. -/
theorem C1_stale_cleanup (store : ProfileStore) (sourceId : String)
    (ssoProfile : StoredProfile) (catalog : List (String × List String))
    (warnState : Option String) (R : String) (sp : StoredProfile)
    (hR : store.getProfile R = some sp)
    (hlinked : linkedSsoSession sp = some sourceId)
    (hnot : ∀ pr ∈ pairsOf catalog, mkPairId sourceId pr ≠ R) :
    (loadLinkedFull store sourceId ssoProfile catalog warnState).store.getProfile R = none ∧
    ∀ n, (loadLinkedEarlyStop store sourceId catalog n).store.getProfile R = some sp := by
  constructor
  · rw [loadLinkedFull_store]
    have hloop : lookupKey
        (((pairsOf catalog).foldl (discoveryStep sourceId) ⟨store, [], []⟩).store.data) R =
          some sp :=
      discoveryFold_preserves sourceId (pairsOf catalog) ⟨store, [], []⟩ R sp hR
    have hnotfound :
        R ∉ ((pairsOf catalog).foldl (discoveryStep sourceId) ⟨store, [], []⟩).found := by
      rw [discoveryFold_found]
      rw [mem_foundFold]
      rintro (h0 | ⟨pr, hpr, rfl⟩)
      · exact absurd h0 (List.not_mem_nil R)
      · exact hnot pr hpr rfl
    have hc : cleanupCond sourceId
        ((pairsOf catalog).foldl (discoveryStep sourceId) ⟨store, [], []⟩).found R sp :=
      ⟨hlinked, hnotfound⟩
    exact cleanupFold_deletes sourceId _ R sp hc _ _ (lookupKey_mem _ _ _ hloop)
  · intro n
    exact discoveryFold_preserves sourceId ((pairsOf catalog).take n) ⟨store, [], []⟩ R sp hR

/-- Witness for C1: a stored linked profile `sso:s#Old-1` of session "s"
is deleted by a full drain over a catalog deriving only `sso:s#Admin-1`,
and kept by a run stopped after the first pair. -/
theorem C1_stale_cleanup_witness :
    (loadLinkedFull
        ⟨[("sso:s#Old-1", ⟨.iamLinked "Old-1" "s" "Old" "1", ⟨none, .unauthenticated, none⟩⟩)],
          none⟩
        "s" ⟨.sso "us-east-1" "https://u" none, ⟨none, .unauthenticated, none⟩⟩
        [("1", ["Admin"])] none).store.getProfile "sso:s#Old-1" = none ∧
    (loadLinkedEarlyStop
        ⟨[("sso:s#Old-1", ⟨.iamLinked "Old-1" "s" "Old" "1", ⟨none, .unauthenticated, none⟩⟩)],
          none⟩
        "s" [("1", ["Admin"])] 1).store.getProfile "sso:s#Old-1" =
      some ⟨.iamLinked "Old-1" "s" "Old" "1", ⟨none, .unauthenticated, none⟩⟩ :=
  ⟨(C1_stale_cleanup
      ⟨[("sso:s#Old-1", ⟨.iamLinked "Old-1" "s" "Old" "1", ⟨none, .unauthenticated, none⟩⟩)],
        none⟩
      "s" ⟨.sso "us-east-1" "https://u" none, ⟨none, .unauthenticated, none⟩⟩
      [("1", ["Admin"])] none "sso:s#Old-1"
      ⟨.iamLinked "Old-1" "s" "Old" "1", ⟨none, .unauthenticated, none⟩⟩
      (by decide) (by decide) (by decide)).1,
   (C1_stale_cleanup
      ⟨[("sso:s#Old-1", ⟨.iamLinked "Old-1" "s" "Old" "1", ⟨none, .unauthenticated, none⟩⟩)],
        none⟩
      "s" ⟨.sso "us-east-1" "https://u" none, ⟨none, .unauthenticated, none⟩⟩
      [("1", ["Admin"])] none "sso:s#Old-1"
      ⟨.iamLinked "Old-1" "s" "Old" "1", ⟨none, .unauthenticated, none⟩⟩
      (by decide) (by decide) (by decide)).2 1⟩

/-- C2: discovery is deterministic and idempotent. The `found` set of a full
run is exactly the set of ids `sso:<sourceId>#<roleName>-<accountId>` derived
from the catalog's pairs; and a second full run over the unchanged catalog
computes the same `found` set, yields nothing (every id is already stored, so
every pair is skipped — no overwrite, no duplicate) and leaves the store
exactly as the first run left it (deletes nothing). -/
theorem C2_discovery_idempotent (store : ProfileStore) (sourceId : String)
    (ssoProfile : StoredProfile) (catalog : List (String × List String))
    (warnState : Option String) :
    (∀ x, x ∈ (loadLinkedFull store sourceId ssoProfile catalog warnState).found ↔
      ∃ pr ∈ pairsOf catalog, x = mkPairId sourceId pr) ∧
    (loadLinkedFull (loadLinkedFull store sourceId ssoProfile catalog warnState).store
        sourceId ssoProfile catalog
        (loadLinkedFull store sourceId ssoProfile catalog warnState).warnState).found =
      (loadLinkedFull store sourceId ssoProfile catalog warnState).found ∧
    (loadLinkedFull (loadLinkedFull store sourceId ssoProfile catalog warnState).store
        sourceId ssoProfile catalog
        (loadLinkedFull store sourceId ssoProfile catalog warnState).warnState).yielded = [] ∧
    (loadLinkedFull (loadLinkedFull store sourceId ssoProfile catalog warnState).store
        sourceId ssoProfile catalog
        (loadLinkedFull store sourceId ssoProfile catalog warnState).warnState).store =
      (loadLinkedFull store sourceId ssoProfile catalog warnState).store := by
  have hfound1 : (loadLinkedFull store sourceId ssoProfile catalog warnState).found =
      (pairsOf catalog).foldl (fun acc pr => addSet acc (mkPairId sourceId pr)) [] := by
    rw [loadLinkedFull_found, discoveryFold_found]
  -- every derived id is present in the store the first run leaves behind
  have hpresent : ∀ pr ∈ pairsOf catalog,
      (((loadLinkedFull store sourceId ssoProfile catalog warnState).store).getProfile
        (mkPairId sourceId pr)).isSome := by
    intro pr hpr
    rw [loadLinkedFull_store]
    have h1 := discoveryFold_mem_isSome sourceId (pairsOf catalog) ⟨store, [], []⟩ pr hpr
    have hf : mkPairId sourceId pr ∈
        ((pairsOf catalog).foldl (discoveryStep sourceId) ⟨store, [], []⟩).found := by
      rw [discoveryFold_found, mem_foundFold]
      exact Or.inr ⟨pr, hpr, rfl⟩
    rw [Option.isSome_iff_exists] at h1
    obtain ⟨v, hv⟩ := h1
    rw [Option.isSome_iff_exists]
    refine ⟨v, ?_⟩
    show lookupKey _ _ = some v
    rw [cleanupFold_keeps sourceId _ _ _ _ hf]
    exact hv
  -- the second run's loop changes nothing
  have hloop2 := discoveryFold_noop sourceId (pairsOf catalog)
    (loadLinkedFull store sourceId ssoProfile catalog warnState).store [] []
    hpresent
  -- no entry the first run keeps satisfies the cleanup condition
  have hclean : ∀ e ∈ (loadLinkedFull store sourceId ssoProfile catalog warnState).store.data,
      ¬ cleanupCond sourceId
        ((pairsOf catalog).foldl (fun acc pr => addSet acc (mkPairId sourceId pr)) [])
        e.1 e.2 := by
    intro e he
    rw [loadLinkedFull_store] at he
    have := cleanupFold_mem sourceId _ _ _ e.1 e.2 (by simpa using he)
    have h2 := this.2 this.1
    rwa [discoveryFold_found] at h2
  refine ⟨?_, ?_, ?_, ?_⟩
  · intro x
    rw [hfound1, mem_foundFold]
    simp
  · rw [loadLinkedFull_found, hloop2, hfound1]
  · rw [loadLinkedFull_yielded, hloop2]
  · rw [loadLinkedFull_store (loadLinkedFull store sourceId ssoProfile catalog warnState).store,
      hloop2]
    exact cleanupFold_noop sourceId _ _ _ hclean

/-! ## The zero-result diagnostic -/

theorem loadLinkedFull_warnCalled (store : ProfileStore) (sourceId : String)
    (ssoProfile : StoredProfile) (catalog : List (String × List String))
    (warnState : Option String) :
    (loadLinkedFull store sourceId ssoProfile catalog warnState).warnCalled =
      (!hasOtherScopes ssoProfile && ((accountsOf catalog).isEmpty ||
        ((pairsOf catalog).foldl (discoveryStep sourceId) ⟨store, [], []⟩).found.isEmpty)) := rfl

theorem loadLinkedFull_shownWarning (store : ProfileStore) (sourceId : String)
    (ssoProfile : StoredProfile) (catalog : List (String × List String))
    (warnState : Option String) :
    (loadLinkedFull store sourceId ssoProfile catalog warnState).shownWarning =
      ((loadLinkedFull store sourceId ssoProfile catalog warnState).warnCalled &&
        decide (warnState ≠
          some (warnMessage (truncateStartUrl (ssoProfileStartUrl ssoProfile))))) := rfl

theorem loadLinkedFull_warnState (store : ProfileStore) (sourceId : String)
    (ssoProfile : StoredProfile) (catalog : List (String × List String))
    (warnState : Option String) :
    (loadLinkedFull store sourceId ssoProfile catalog warnState).warnState =
      (if (loadLinkedFull store sourceId ssoProfile catalog warnState).warnCalled then
        some (warnMessage (truncateStartUrl (ssoProfileStartUrl ssoProfile)))
      else warnState) := rfl

theorem loadLinkedFull_logs (store : ProfileStore) (sourceId : String)
    (ssoProfile : StoredProfile) (catalog : List (String × List String))
    (warnState : Option String) :
    (loadLinkedFull store sourceId ssoProfile catalog warnState).logs =
      (if (loadLinkedFull store sourceId ssoProfile catalog warnState).warnCalled then
        if (accountsOf catalog).isEmpty then
          [logNoAccounts (truncateStartUrl (ssoProfileStartUrl ssoProfile))]
        else if ((pairsOf catalog).foldl (discoveryStep sourceId)
            ⟨store, [], []⟩).found.isEmpty then
          [logNoRoles (truncateStartUrl (ssoProfileStartUrl ssoProfile))
            (String.intercalate "," (accountsOf catalog))]
        else []
      else []) := rfl

theorem accountsOf_eq_nil_iff (catalog : List (String × List String)) :
    accountsOf catalog = [] ↔ catalog = [] := by
  unfold accountsOf
  exact foldl_addSet_nil_iff (fun ar => ar.1) catalog

/-- C9 (as amended): the zero-result diagnostic of
`loadLinkedProfilesIntoStore`. `warnOnce` is called exactly when the source
profile's scopes contain no scope beyond `sso:account:access` and either zero
accounts were seen or zero roles were derived; the message is displayed
exactly when it was called and the message differs from the last one shown
(de-duplication against the immediately preceding message only); the log
output distinguishes the zero-accounts case from the zero-roles case; and a
second identical run right after a warning does not re-display it. -/
theorem C9_zero_result_warning (store : ProfileStore) (sourceId : String)
    (ssoProfile : StoredProfile) (catalog : List (String × List String))
    (warnState : Option String) :
    ((loadLinkedFull store sourceId ssoProfile catalog warnState).warnCalled = true ↔
      (hasOtherScopes ssoProfile = false ∧ (catalog = [] ∨ pairsOf catalog = []))) ∧
    ((loadLinkedFull store sourceId ssoProfile catalog warnState).shownWarning = true ↔
      ((loadLinkedFull store sourceId ssoProfile catalog warnState).warnCalled = true ∧
        warnState ≠
          some (warnMessage (truncateStartUrl (ssoProfileStartUrl ssoProfile))))) ∧
    (hasOtherScopes ssoProfile = false ∧ catalog = [] →
      (loadLinkedFull store sourceId ssoProfile catalog warnState).logs =
        [logNoAccounts (truncateStartUrl (ssoProfileStartUrl ssoProfile))]) ∧
    (hasOtherScopes ssoProfile = false ∧ catalog ≠ [] ∧ pairsOf catalog = [] →
      (loadLinkedFull store sourceId ssoProfile catalog warnState).logs =
        [logNoRoles (truncateStartUrl (ssoProfileStartUrl ssoProfile))
          (String.intercalate "," (accountsOf catalog))]) ∧
    ((loadLinkedFull store sourceId ssoProfile catalog warnState).warnCalled = false →
      (loadLinkedFull store sourceId ssoProfile catalog warnState).logs = []) ∧
    ((loadLinkedFull store sourceId ssoProfile catalog warnState).warnCalled = true →
      (loadLinkedFull (loadLinkedFull store sourceId ssoProfile catalog warnState).store
        sourceId ssoProfile catalog
        (loadLinkedFull store sourceId ssoProfile catalog warnState).warnState).shownWarning =
          false) := by
  have hacc : (accountsOf catalog).isEmpty = true ↔ catalog = [] := by
    rw [List.isEmpty_iff]
    exact accountsOf_eq_nil_iff catalog
  have hfnd : (((pairsOf catalog).foldl (discoveryStep sourceId)
      ⟨store, [], []⟩).found).isEmpty = true ↔ pairsOf catalog = [] := by
    rw [discoveryFold_found, List.isEmpty_iff]
    exact foldl_addSet_nil_iff (fun pr => mkPairId sourceId pr) (pairsOf catalog)
  have hcalled : (loadLinkedFull store sourceId ssoProfile catalog warnState).warnCalled = true ↔
      (hasOtherScopes ssoProfile = false ∧ (catalog = [] ∨ pairsOf catalog = [])) := by
    rw [loadLinkedFull_warnCalled, Bool.and_eq_true, Bool.or_eq_true, Bool.not_eq_true']
    rw [hacc, hfnd]
  refine ⟨hcalled, ?_, ?_, ?_, ?_, ?_⟩
  · rw [loadLinkedFull_shownWarning, Bool.and_eq_true, decide_eq_true_eq]
  · rintro ⟨hsc, hcat⟩
    have h1 : (loadLinkedFull store sourceId ssoProfile catalog warnState).warnCalled = true :=
      hcalled.mpr ⟨hsc, Or.inl hcat⟩
    rw [loadLinkedFull_logs, if_pos h1, if_pos (hacc.mpr hcat)]
  · rintro ⟨hsc, hcat, hpairs⟩
    have h1 : (loadLinkedFull store sourceId ssoProfile catalog warnState).warnCalled = true :=
      hcalled.mpr ⟨hsc, Or.inr hpairs⟩
    have hacc' : ¬ (accountsOf catalog).isEmpty = true := fun h => hcat (hacc.mp h)
    rw [loadLinkedFull_logs, if_pos h1, if_neg hacc', if_pos (hfnd.mpr hpairs)]
  · intro h0
    rw [loadLinkedFull_logs, h0]
    simp
  · intro h1
    rw [loadLinkedFull_shownWarning]
    have hws : (loadLinkedFull store sourceId ssoProfile catalog warnState).warnState =
        some (warnMessage (truncateStartUrl (ssoProfileStartUrl ssoProfile))) := by
      rw [loadLinkedFull_warnState, if_pos h1]
    rw [hws]
    simp

/-- Witness for C9: over an empty catalog with a scope-less profile the
diagnostic fires and a second identical run does not re-display it. -/
theorem C9_zero_result_warning_witness :
    (loadLinkedFull ⟨[], none⟩ "s"
        ⟨.sso "us-east-1" "https://u" none, ⟨none, .unauthenticated, none⟩⟩ [] none).warnCalled =
      true ∧
    (loadLinkedFull
        (loadLinkedFull ⟨[], none⟩ "s"
          ⟨.sso "us-east-1" "https://u" none, ⟨none, .unauthenticated, none⟩⟩ [] none).store
        "s" ⟨.sso "us-east-1" "https://u" none, ⟨none, .unauthenticated, none⟩⟩ []
        (loadLinkedFull ⟨[], none⟩ "s"
          ⟨.sso "us-east-1" "https://u" none, ⟨none, .unauthenticated, none⟩⟩ []
          none).warnState).shownWarning = false :=
  ⟨by decide,
   (C9_zero_result_warning ⟨[], none⟩ "s"
      ⟨.sso "us-east-1" "https://u" none, ⟨none, .unauthenticated, none⟩⟩ [] none).2.2.2.2.2
    (by decide)⟩

/-- Counterexample to C9 as stated: the de-duplication compares only against
the last shown message, so an identical message can be shown twice. Three
successive runs — session "s1" (start URL "u1"), session "s2" ("u2"), then
"s1" again — display the "u1" warning, the "u2" warning, and the "u1"
warning a second time. -/
theorem C9_warning_reshown_counterexample :
    (loadLinkedFull ⟨[], none⟩ "s1"
        ⟨.sso "r" "u1" none, ⟨none, .unauthenticated, none⟩⟩ [] none).shownWarning = true ∧
    (loadLinkedFull ⟨[], none⟩ "s1"
        ⟨.sso "r" "u1" none, ⟨none, .unauthenticated, none⟩⟩ [] none).warnState =
      some (warnMessage "u1") ∧
    (loadLinkedFull
        (loadLinkedFull ⟨[], none⟩ "s1"
          ⟨.sso "r" "u1" none, ⟨none, .unauthenticated, none⟩⟩ [] none).store
        "s2" ⟨.sso "r" "u2" none, ⟨none, .unauthenticated, none⟩⟩ []
        (loadLinkedFull ⟨[], none⟩ "s1"
          ⟨.sso "r" "u1" none, ⟨none, .unauthenticated, none⟩⟩ [] none).warnState).shownWarning =
      true ∧
    (loadLinkedFull
        (loadLinkedFull
          (loadLinkedFull ⟨[], none⟩ "s1"
            ⟨.sso "r" "u1" none, ⟨none, .unauthenticated, none⟩⟩ [] none).store
          "s2" ⟨.sso "r" "u2" none, ⟨none, .unauthenticated, none⟩⟩ []
          (loadLinkedFull ⟨[], none⟩ "s1"
            ⟨.sso "r" "u1" none, ⟨none, .unauthenticated, none⟩⟩ [] none).warnState).store
        "s1" ⟨.sso "r" "u1" none, ⟨none, .unauthenticated, none⟩⟩ []
        (loadLinkedFull
          (loadLinkedFull ⟨[], none⟩ "s1"
            ⟨.sso "r" "u1" none, ⟨none, .unauthenticated, none⟩⟩ [] none).store
          "s2" ⟨.sso "r" "u2" none, ⟨none, .unauthenticated, none⟩⟩ []
          (loadLinkedFull ⟨[], none⟩ "s1"
            ⟨.sso "r" "u1" none, ⟨none, .unauthenticated, none⟩⟩ []
            none).warnState).warnState).shownWarning = true ∧
    (loadLinkedFull
        (loadLinkedFull
          (loadLinkedFull ⟨[], none⟩ "s1"
            ⟨.sso "r" "u1" none, ⟨none, .unauthenticated, none⟩⟩ [] none).store
          "s2" ⟨.sso "r" "u2" none, ⟨none, .unauthenticated, none⟩⟩ []
          (loadLinkedFull ⟨[], none⟩ "s1"
            ⟨.sso "r" "u1" none, ⟨none, .unauthenticated, none⟩⟩ [] none).warnState).store
        "s1" ⟨.sso "r" "u1" none, ⟨none, .unauthenticated, none⟩⟩ []
        (loadLinkedFull
          (loadLinkedFull ⟨[], none⟩ "s1"
            ⟨.sso "r" "u1" none, ⟨none, .unauthenticated, none⟩⟩ [] none).store
          "s2" ⟨.sso "r" "u2" none, ⟨none, .unauthenticated, none⟩⟩ []
          (loadLinkedFull ⟨[], none⟩ "s1"
            ⟨.sso "r" "u1" none, ⟨none, .unauthenticated, none⟩⟩ []
            none).warnState).warnState).warnState = some (warnMessage "u1") := by
  refine ⟨by decide, by decide, by decide, by decide, by decide⟩

/-! ## Unmanaged-profile sync, `loadIamProfilesIntoStore` -/

/-- `profile.type === 'iam' && profile.subtype === 'linked'`. -/
def isLinkedProfile (sp : StoredProfile) : Bool :=
  (linkedSsoSession sp).isSome

/-- `profile.type === 'iam' && profile.subtype === 'unknown'`. -/
def isUnknownProfile (sp : StoredProfile) : Bool :=
  match sp.profile with
  | .iamUnknown _ => true
  | _ => false

/-- The check of the orphan-cleanup branch: the `ssoSession` of a linked
profile resolves to a stored profile of type `sso`
(the source deletes when `source === undefined || source.type !== 'sso'`). -/
def hasValidSsoRef (store : ProfileStore) (sp : StoredProfile) : Bool :=
  match linkedSsoSession sp with
  | some t =>
    match store.getProfile t with
    | some src => decide (src.profile.type = .sso)
    | none => false
  | none => false

theorem loadIam_fst (store : ProfileStore) (providers : List (String × String)) :
    (loadIamProfilesIntoStore store providers).1 =
      providers.foldl iamAddStep
        ((store.listProfiles.foldl (iamSyncStep providers) (store, [])).1) := rfl

theorem loadIam_snd (store : ProfileStore) (providers : List (String × String)) :
    (loadIamProfilesIntoStore store providers).2 =
      (store.listProfiles.foldl (iamSyncStep providers) (store, [])).2 := rfl

theorem delKey_none {α : Type} (m : List (String × α)) (j id : String)
    (h : lookupKey m id = none) : lookupKey (delKey m j) id = none := by
  by_cases he : id = j
  · rw [he]
    exact lookupKey_delKey_self _ _
  · rw [lookupKey_delKey_ne _ _ _ he]
    exact h

theorem delKey_some {α : Type} (m : List (String × α)) (j id : String) (v : α)
    (h : lookupKey (delKey m j) id = some v) : lookupKey m id = some v := by
  by_cases he : id = j
  · rw [he, lookupKey_delKey_self] at h
    exact absurd h (by simp)
  · rwa [lookupKey_delKey_ne _ _ _ he] at h

theorem lookupKey_none_iff {α : Type} (m : List (String × α)) (id : String) :
    lookupKey m id = none ↔ ∀ kv ∈ m, kv.1 ≠ id := by
  induction m with
  | nil => simp [lookupKey]
  | cons kv rest ih =>
    by_cases h : kv.1 = id
    · simp [lookupKey, h]
    · simp [lookupKey, h, ih]

theorem iamSyncStep_store (providers : List (String × String))
    (acc : ProfileStore × List String) (e : String × StoredProfile) :
    (iamSyncStep providers acc e).1 = acc.1 ∨
      (iamSyncStep providers acc e).1 = acc.1.deleteProfile e.1 := by
  rcases hp : e.2.profile with ⟨r0, u0, sc0⟩ | ⟨n, t, r1, a1⟩ | n
  · left
    simp [iamSyncStep, hp]
  · rcases hg : acc.1.getProfile t with _ | src
    · right
      simp [iamSyncStep, hp, hg]
    · by_cases hty : src.profile.type = ProfileType.sso
      · left
        simp [iamSyncStep, hp, hg, hty]
      · right
        simp [iamSyncStep, hp, hg, hty]
  · by_cases hc : (lookupKey providers e.1).isSome
    · left
      simp [iamSyncStep, hp, hc]
    · right
      simp [iamSyncStep, hp, hc]

theorem iamSyncStep_removed_mono (providers : List (String × String))
    (acc : ProfileStore × List String) (e : String × StoredProfile) (x : String)
    (h : x ∈ acc.2) : x ∈ (iamSyncStep providers acc e).2 := by
  rcases hp : e.2.profile with ⟨r0, u0, sc0⟩ | ⟨n, t, r1, a1⟩ | n
  · simpa [iamSyncStep, hp] using h
  · rcases hg : acc.1.getProfile t with _ | src
    · simp [iamSyncStep, hp, hg]
      exact Or.inl h
    · by_cases hty : src.profile.type = ProfileType.sso
      · simpa [iamSyncStep, hp, hg, hty] using h
      · simp [iamSyncStep, hp, hg, hty]
        exact Or.inl h
  · by_cases hc : (lookupKey providers e.1).isSome
    · simpa [iamSyncStep, hp, hc] using h
    · simpa [iamSyncStep, hp, hc] using h

theorem iamSyncStep_submap (providers : List (String × String))
    (acc : ProfileStore × List String) (e : String × StoredProfile) (id : String)
    (v : StoredProfile)
    (h : lookupKey ((iamSyncStep providers acc e).1.data) id = some v) :
    lookupKey acc.1.data id = some v := by
  rcases iamSyncStep_store providers acc e with hs | hs
  · rwa [hs] at h
  · rw [hs] at h
    exact delKey_some _ _ _ _ h

theorem iamSyncFold_none (providers : List (String × String)) (l : ProfileData) :
    ∀ (acc : ProfileStore × List String) (id : String),
      lookupKey acc.1.data id = none →
      lookupKey ((l.foldl (iamSyncStep providers) acc).1.data) id = none := by
  induction l with
  | nil =>
    intro acc id h
    exact h
  | cons e rest ih =>
    intro acc id h
    rw [List.foldl_cons]
    apply ih
    rcases iamSyncStep_store providers acc e with hs | hs
    · rw [hs]
      exact h
    · rw [hs]
      exact delKey_none _ _ _ h

theorem iamSyncFold_removed_mono (providers : List (String × String)) (l : ProfileData) :
    ∀ (acc : ProfileStore × List String) (x : String), x ∈ acc.2 →
      x ∈ (l.foldl (iamSyncStep providers) acc).2 := by
  induction l with
  | nil =>
    intro acc x h
    exact h
  | cons e rest ih =>
    intro acc x h
    rw [List.foldl_cons]
    exact ih _ _ (iamSyncStep_removed_mono providers acc e x h)

theorem iamSyncFold_deletes_orphan (providers : List (String × String)) (store : ProfileStore)
    (id : String) (sp : StoredProfile)
    (horph : hasValidSsoRef store sp = false)
    (hlink : isLinkedProfile sp = true) :
    ∀ (l : ProfileData) (acc : ProfileStore × List String),
      (id, sp) ∈ l →
      (∀ j w, lookupKey acc.1.data j = some w → lookupKey store.data j = some w) →
      lookupKey ((l.foldl (iamSyncStep providers) acc).1.data) id = none ∧
      id ∈ (l.foldl (iamSyncStep providers) acc).2 := by
  intro l
  induction l with
  | nil =>
    intro acc hmem _
    exact absurd hmem (List.not_mem_nil _)
  | cons e rest ih =>
    intro acc hmem hsub
    rw [List.foldl_cons]
    rcases List.mem_cons.mp hmem with heq | hmem'
    · subst heq
      have hdel : iamSyncStep providers acc (id, sp) =
          (acc.1.deleteProfile id, acc.2 ++ [id]) := by
        rcases hp : sp.profile with ⟨r0, u0, sc0⟩ | ⟨n, t, r1, a1⟩ | n
        · simp [isLinkedProfile, linkedSsoSession, hp] at hlink
        · rcases hg : acc.1.getProfile t with _ | src
          · simp [iamSyncStep, hp, hg]
          · have hsrc : lookupKey store.data t = some src := hsub t src hg
            have hty : ¬ src.profile.type = ProfileType.sso := by
              intro he
              simp [hasValidSsoRef, linkedSsoSession, hp, ProfileStore.getProfile,
                hsrc, he] at horph
            simp [iamSyncStep, hp, hg, hty]
        · simp [isLinkedProfile, linkedSsoSession, hp] at hlink
      refine ⟨?_, ?_⟩
      · apply iamSyncFold_none
        rw [hdel]
        exact lookupKey_delKey_self _ _
      · apply iamSyncFold_removed_mono
        rw [hdel]
        simp
    · have hsub' : ∀ j w, lookupKey ((iamSyncStep providers acc e).1.data) j = some w →
          lookupKey store.data j = some w :=
        fun j w hw => hsub j w (iamSyncStep_submap providers acc e j w hw)
      exact ih _ hmem' hsub'

theorem iamSyncFold_deletes_unknown (providers : List (String × String))
    (id : String) (sp : StoredProfile)
    (hunk : isUnknownProfile sp = true) (hnp : lookupKey providers id = none) :
    ∀ (l : ProfileData) (acc : ProfileStore × List String), (id, sp) ∈ l →
      lookupKey ((l.foldl (iamSyncStep providers) acc).1.data) id = none := by
  intro l
  induction l with
  | nil =>
    intro acc hmem
    exact absurd hmem (List.not_mem_nil _)
  | cons e rest ih =>
    intro acc hmem
    rw [List.foldl_cons]
    rcases List.mem_cons.mp hmem with heq | hmem'
    · subst heq
      rcases hp : sp.profile with ⟨r0, u0, sc0⟩ | ⟨n, t, r1, a1⟩ | n
      · simp [isUnknownProfile, hp] at hunk
      · simp [isUnknownProfile, hp] at hunk
      · apply iamSyncFold_none
        have hc : ¬ (lookupKey providers id).isSome = true := by
          simp [hnp]
        simp [iamSyncStep, hp, hc, ProfileStore.deleteProfile, lookupKey_delKey_self]
    · exact ih _ hmem'

theorem iamAddFold_preserves_some (l : List (String × String)) :
    ∀ (s : ProfileStore) (id : String) (v : StoredProfile),
      lookupKey s.data id = some v →
      lookupKey ((l.foldl iamAddStep s).data) id = some v := by
  induction l with
  | nil =>
    intro s id v h
    exact h
  | cons pv rest ih =>
    intro s id v h
    rw [List.foldl_cons]
    apply ih
    by_cases hc : ((s.getProfile pv.1).isNone && !pv.1.startsWith "sso:") = true
    · have hne : id ≠ pv.1 := by
        intro e
        rw [Bool.and_eq_true] at hc
        have h0 : ProfileStore.getProfile s pv.1 = none := by
          rw [← Option.isNone_iff_eq_none]
          exact hc.1
        rw [← e] at h0
        rw [show ProfileStore.getProfile s id = lookupKey s.data id from rfl, h] at h0
        exact Option.noConfusion h0
      simp [iamAddStep, hc, ProfileStore.addProfile, ProfileStore.putProfile,
        lookupKey_setKey_ne _ _ _ _ hne, h]
    · simpa [iamAddStep, hc] using h

theorem iamAddFold_preserves_at (l : List (String × String)) :
    ∀ (s : ProfileStore) (id : String), (∀ pv ∈ l, pv.1 ≠ id) →
      lookupKey ((l.foldl iamAddStep s).data) id = lookupKey s.data id := by
  induction l with
  | nil =>
    intro s id _
    rfl
  | cons pv rest ih =>
    intro s id h
    rw [List.foldl_cons, ih _ _ (fun q hq => h q (List.mem_cons_of_mem _ hq))]
    by_cases hc : ((s.getProfile pv.1).isNone && !pv.1.startsWith "sso:") = true
    · have hne : id ≠ pv.1 := Ne.symm (h pv (List.mem_cons_self pv rest))
      simp [iamAddStep, hc, ProfileStore.addProfile, ProfileStore.putProfile,
        lookupKey_setKey_ne _ _ _ _ hne]
    · simp [iamAddStep, hc]

theorem iamAddFold_none_sso (l : List (String × String)) :
    ∀ (s : ProfileStore) (id : String), lookupKey s.data id = none →
      id.startsWith "sso:" = true →
      lookupKey ((l.foldl iamAddStep s).data) id = none := by
  induction l with
  | nil =>
    intro s id h _
    exact h
  | cons pv rest ih =>
    intro s id h hsso
    rw [List.foldl_cons]
    apply ih _ _ _ hsso
    by_cases hc : ((s.getProfile pv.1).isNone && !pv.1.startsWith "sso:") = true
    · by_cases he : pv.1 = id
      · exfalso
        rw [Bool.and_eq_true, he, hsso] at hc
        simp at hc
      · simp [iamAddStep, hc, ProfileStore.addProfile, ProfileStore.putProfile,
          lookupKey_setKey_ne _ _ _ _ (fun e => he e.symm), h]
    · simpa [iamAddStep, hc] using h

theorem iamAddFold_none_or_unknown (l : List (String × String)) :
    ∀ (s : ProfileStore) (id : String), lookupKey s.data id = none →
      lookupKey ((l.foldl iamAddStep s).data) id = none ∨
      ∃ d, lookupKey ((l.foldl iamAddStep s).data) id =
        some (initMetadata (.iamUnknown d)) := by
  induction l with
  | nil =>
    intro s id h
    exact Or.inl h
  | cons pv rest ih =>
    intro s id h
    rw [List.foldl_cons]
    by_cases hc : ((s.getProfile pv.1).isNone && !pv.1.startsWith "sso:") = true
    · by_cases he : pv.1 = id
      · right
        refine ⟨pv.2, ?_⟩
        apply iamAddFold_preserves_some
        subst he
        simp [iamAddStep, hc, ProfileStore.addProfile, ProfileStore.putProfile,
          lookupKey_setKey_self]
      · apply ih
        simp [iamAddStep, hc, ProfileStore.addProfile, ProfileStore.putProfile,
          lookupKey_setKey_ne _ _ _ _ (fun e => he e.symm), h]
    · apply ih
      simpa [iamAddStep, hc] using h

theorem iamAddFold_adds (l : List (String × String)) :
    ∀ (s : ProfileStore) (id d : String),
      (l.map Prod.fst).Nodup → (id, d) ∈ l →
      lookupKey s.data id = none → ¬ id.startsWith "sso:" = true →
      lookupKey ((l.foldl iamAddStep s).data) id =
        some (initMetadata (.iamUnknown d)) := by
  induction l with
  | nil =>
    intro s id d _ hmem _ _
    exact absurd hmem (List.not_mem_nil _)
  | cons pv rest ih =>
    intro s id d hnd hmem hnone hsso
    rw [List.foldl_cons]
    rcases List.mem_cons.mp hmem with heq | hmem'
    · subst heq
      have hc : ((s.getProfile (id, d).1).isNone && !(id, d).1.startsWith "sso:") = true := by
        rw [Bool.and_eq_true]
        constructor
        · rw [Option.isNone_iff_eq_none]
          exact hnone
        · simp [hsso]
      apply iamAddFold_preserves_some
      simp [iamAddStep, hc, ProfileStore.addProfile, ProfileStore.putProfile,
        lookupKey_setKey_self]
    · have hne : pv.1 ≠ id := by
        intro e
        rw [List.map_cons, List.nodup_cons] at hnd
        exact hnd.1 (e ▸ List.mem_map_of_mem Prod.fst hmem')
      have hnd' : (rest.map Prod.fst).Nodup := by
        rw [List.map_cons, List.nodup_cons] at hnd
        exact hnd.2
      have hstep : lookupKey ((iamAddStep s pv).data) id = none := by
        by_cases hc : ((s.getProfile pv.1).isNone && !pv.1.startsWith "sso:") = true
        · simp [iamAddStep, hc, ProfileStore.addProfile, ProfileStore.putProfile,
            lookupKey_setKey_ne _ _ _ _ (Ne.symm hne), hnone]
        · simpa [iamAddStep, hc] using hnone
      exact ih _ _ _ hnd' hmem' hstep hsso

/-- C8: the unmanaged-profile sync postcondition. After
`loadIamProfilesIntoStore` over a store and a provider enumeration
(with, as for a JS object, no repeated provider key):
(1) every stored `iam/linked` profile whose referenced `sso` profile does not
exist is gone from the store (its id maps to nothing — or, when the id is
also an enumerated non-`sso:` provider id, to a freshly added `iam/unknown`
record, never the linked record) and its id was removed from the external
registration; (2) every stored `iam/unknown` profile absent from the
enumeration is deleted; (3) every enumerated id absent from the store that
does not start with `sso:` is added as `iam/unknown`. -/
theorem C8_loadIamProfiles_sync (store : ProfileStore) (providers : List (String × String))
    (hnd : (providers.map Prod.fst).Nodup) :
    (∀ id sp, (id, sp) ∈ store.listProfiles → isLinkedProfile sp = true →
      hasValidSsoRef store sp = false →
      (loadIamProfilesIntoStore store providers).1.getProfile id ≠ some sp ∧
      id ∈ (loadIamProfilesIntoStore store providers).2 ∧
      (lookupKey providers id = none →
        (loadIamProfilesIntoStore store providers).1.getProfile id = none) ∧
      (id.startsWith "sso:" = true →
        (loadIamProfilesIntoStore store providers).1.getProfile id = none)) ∧
    (∀ id sp, (id, sp) ∈ store.listProfiles → isUnknownProfile sp = true →
      lookupKey providers id = none →
      (loadIamProfilesIntoStore store providers).1.getProfile id = none) ∧
    (∀ id d, (id, d) ∈ providers → store.getProfile id = none →
      ¬ id.startsWith "sso:" = true →
      (loadIamProfilesIntoStore store providers).1.getProfile id =
        some (initMetadata (.iamUnknown d))) := by
  refine ⟨?_, ?_, ?_⟩
  · intro id sp hmem hlink horph
    obtain ⟨h1none, h1rem⟩ := iamSyncFold_deletes_orphan providers store id sp horph hlink
      store.listProfiles (store, []) hmem (fun j w hw => hw)
    refine ⟨?_, ?_, ?_, ?_⟩
    · rw [loadIam_fst]
      rcases iamAddFold_none_or_unknown providers _ id h1none with hn | ⟨d, hd⟩
      · show lookupKey _ _ ≠ some sp
        rw [hn]
        exact Option.noConfusion
      · show lookupKey _ _ ≠ some sp
        rw [hd]
        intro hcontra
        have hsp : initMetadata (.iamUnknown d) = sp := Option.some.inj hcontra
        rw [← hsp] at hlink
        simp [isLinkedProfile, linkedSsoSession, initMetadata] at hlink
    · rw [loadIam_snd]
      exact h1rem
    · intro hnp
      rw [loadIam_fst]
      show lookupKey _ _ = none
      rw [iamAddFold_preserves_at providers _ id ((lookupKey_none_iff providers id).mp hnp)]
      exact h1none
    · intro hsso
      rw [loadIam_fst]
      exact iamAddFold_none_sso providers _ id h1none hsso
  · intro id sp hmem hunk hnp
    have h1 := iamSyncFold_deletes_unknown providers id sp hunk hnp
      store.listProfiles (store, []) hmem
    rw [loadIam_fst]
    show lookupKey _ _ = none
    rw [iamAddFold_preserves_at providers _ id ((lookupKey_none_iff providers id).mp hnp)]
    exact h1
  · intro id d hmem hnone hsso
    have h1 : lookupKey ((store.listProfiles.foldl (iamSyncStep providers) (store, [])).1.data)
        id = none :=
      iamSyncFold_none providers store.listProfiles (store, []) id hnone
    rw [loadIam_fst]
    exact iamAddFold_adds providers _ id d hnd hmem h1 hsso

/-- Witness for C8 at a concrete store: the orphan linked profile
`sso:dead#r-1` is gone and de-registered, the unmanaged `iam/unknown` "U"
absent from the enumeration is deleted, and the enumerated "N" is added. -/
theorem C8_loadIamProfiles_sync_witness :
    (loadIamProfilesIntoStore
        ⟨[("sso:dead#r-1", ⟨.iamLinked "r-1" "dead" "r" "1", ⟨none, .unauthenticated, none⟩⟩),
          ("U", ⟨.iamUnknown "u", ⟨none, .unauthenticated, none⟩⟩),
          ("K", ⟨.iamUnknown "k", ⟨none, .unauthenticated, none⟩⟩)], none⟩
        [("K", "k"), ("N", "n")]).1.getProfile "sso:dead#r-1" ≠
      some ⟨.iamLinked "r-1" "dead" "r" "1", ⟨none, .unauthenticated, none⟩⟩ ∧
    "sso:dead#r-1" ∈ (loadIamProfilesIntoStore
        ⟨[("sso:dead#r-1", ⟨.iamLinked "r-1" "dead" "r" "1", ⟨none, .unauthenticated, none⟩⟩),
          ("U", ⟨.iamUnknown "u", ⟨none, .unauthenticated, none⟩⟩),
          ("K", ⟨.iamUnknown "k", ⟨none, .unauthenticated, none⟩⟩)], none⟩
        [("K", "k"), ("N", "n")]).2 ∧
    (loadIamProfilesIntoStore
        ⟨[("sso:dead#r-1", ⟨.iamLinked "r-1" "dead" "r" "1", ⟨none, .unauthenticated, none⟩⟩),
          ("U", ⟨.iamUnknown "u", ⟨none, .unauthenticated, none⟩⟩),
          ("K", ⟨.iamUnknown "k", ⟨none, .unauthenticated, none⟩⟩)], none⟩
        [("K", "k"), ("N", "n")]).1.getProfile "U" = none ∧
    (loadIamProfilesIntoStore
        ⟨[("sso:dead#r-1", ⟨.iamLinked "r-1" "dead" "r" "1", ⟨none, .unauthenticated, none⟩⟩),
          ("U", ⟨.iamUnknown "u", ⟨none, .unauthenticated, none⟩⟩),
          ("K", ⟨.iamUnknown "k", ⟨none, .unauthenticated, none⟩⟩)], none⟩
        [("K", "k"), ("N", "n")]).1.getProfile "N" =
      some (initMetadata (.iamUnknown "n")) := by
  have h := C8_loadIamProfiles_sync
    ⟨[("sso:dead#r-1", ⟨.iamLinked "r-1" "dead" "r" "1", ⟨none, .unauthenticated, none⟩⟩),
      ("U", ⟨.iamUnknown "u", ⟨none, .unauthenticated, none⟩⟩),
      ("K", ⟨.iamUnknown "k", ⟨none, .unauthenticated, none⟩⟩)], none⟩
    [("K", "k"), ("N", "n")] (by decide)
  refine ⟨?_, ?_, ?_, ?_⟩
  · exact (h.1 "sso:dead#r-1" ⟨.iamLinked "r-1" "dead" "r" "1", ⟨none, .unauthenticated, none⟩⟩
      (by decide) (by decide) (by decide)).1
  · exact (h.1 "sso:dead#r-1" ⟨.iamLinked "r-1" "dead" "r" "1", ⟨none, .unauthenticated, none⟩⟩
      (by decide) (by decide) (by decide)).2.1
  · exact h.2.1 "U" ⟨.iamUnknown "u", ⟨none, .unauthenticated, none⟩⟩
      (by decide) (by decide) (by decide)
  · exact h.2.2 "N" "n" (by decide) (by decide) (by decide)
